import Mathlib

/-!
Shallow embedding of the connection/state-synchronization core of the
Kodi integration driver (file src/kodi.py and its helpers), together with
proofs about the behaviour of its operations.

Python dictionaries of raw JSON data are modelled as records with Option
fields (none = key absent or empty sub-dictionary), association lists model
string-keyed maps, and every network await is replaced by an explicit
oracle value passed in as an argument.  Async mutation of the device object
is modelled by explicit state passing.
-/

namespace Kodi

/-- Association-list lookup, modelling Python dict.get on string keys. -/
def lookupStr {α : Type} (m : List (String × α)) (k : String) : Option α :=
  (m.find? (fun p => p.1 == k)).map (fun p => p.2)

/-- Python str.title() restricted to ASCII: a letter that follows a letter is
lowercased, any other letter is uppercased, other characters are kept. -/
def pyTitleChars : List Char → Bool → List Char
  | [], _ => []
  | c :: rest, prevAlpha =>
      if c.isAlpha then
        (if prevAlpha then c.toLower else c.toUpper) :: pyTitleChars rest true
      else
        c :: pyTitleChars rest false

/-- Python str.title() for a whole string. -/
def pyTitle (s : String) : String :=
  String.mk (pyTitleChars s.data false)

/-- Python `a or b` on optional strings: an empty or missing string falls
through to the second operand. -/
def pyOr (a b : Option String) : Option String :=
  match a with
  | none => b
  | some s => if s = "" then b else some s

/-- Truthiness of an optional string, as Python sees it. -/
def strTruthy (a : Option String) : Bool :=
  match a with
  | none => false
  | some s => s ≠ ""

/-- Stream-name display preference, from the KodiStreamConfig enumeration of
const.py (STREAM_NAME / LANGUAGE_NAME / FULL) as matched in Track.get_track_name. -/
inductive StreamCfg
  | streamName
  | languageName
  | full
deriving Repr, DecidableEq

/-- Language tables of languages.py plus the application language, passed
explicitly: LANGUAGES maps a stream language code to per-app-language names,
LANGUAGES_KEYS maps an application locale to its language code. -/
structure LangTables where
  langs : List (String × List (String × String)) := []
  langKeys : List (String × String) := []
deriving Repr, DecidableEq

/-- The function _get_language_name of kodi.py: resolve a language code to a
display name through the LANGUAGES table, falling back to English and then to
the raw code.  app_language is None before the first successful fetch, and
LANGUAGES_KEYS.get(None) yields the default code "en". -/
def getLanguageName (t : LangTables) (lang : String) (appLanguage : Option String) : String :=
  if lang = "" then lang
  else
    let appCode :=
      match appLanguage with
      | none => "en"
      | some al => (lookupStr t.langKeys al).getD "en"
    match lookupStr t.langs lang with
    | none => lang
    | some streamLang =>
        ((lookupStr streamLang appCode).orElse (fun _ => lookupStr streamLang "en")).getD lang

/-- A raw audio or subtitle stream dictionary as returned by Player.GetProperties. -/
structure RawStream where
  name : String := ""
  language : String := ""
  index : Int := 0
  bitrate : Int := 0
  channels : Int := 0
  codec : String := ""
  samplerate : Int := 0
  isdefault : Bool := false
  isforced : Bool := false
  isimpaired : Bool := false
deriving Repr, DecidableEq

/-- The Track dataclass of kodi.py. -/
structure Track where
  index : Int
  language_name : String
  stream_name : String
  enabled : Bool := true
  forced : Option Bool := none
  impaired : Option Bool := none
  default : Option Bool := none
deriving Repr, DecidableEq

/-- Track.get_full_name. -/
def Track.fullName (t : Track) : String :=
  if t.language_name ≠ t.stream_name then
    if t.language_name ≠ "" then pyTitle t.language_name ++ " " ++ t.stream_name
    else t.stream_name
  else pyTitle t.language_name

/-- Track.get_stream_name. -/
def Track.streamNameOrLang (t : Track) : String :=
  if t.stream_name ≠ "" then t.stream_name else t.language_name

/-- Track.get_language_name. -/
def Track.languageNameOrStream (t : Track) : String :=
  if t.language_name ≠ "" then pyTitle t.language_name else t.stream_name

/-- Track.get_track_name: computed display name under a given preference,
with the forced / impaired qualifiers appended. -/
def Track.trackName (t : Track) (cfg : StreamCfg) : String :=
  let attributes :=
    (if t.forced = some true then " (forced)" else "") ++
      (if t.impaired = some true then " (impaired)" else "")
  match cfg with
  | .full => t.fullName ++ attributes
  | .streamName => t.streamNameOrLang ++ attributes
  | .languageName => t.languageNameOrStream ++ attributes

/-- Track.get_disabled_track: the synthetic disabled-subtitles entry. -/
def disabledTrack (t : LangTables) (appLanguage : Option String) : Track :=
  { index := -1
    language_name := getLanguageName t "dis" appLanguage
    stream_name := ""
    enabled := false }

/-- KodiDevice._get_stream_info: codec, bitrate, channel and sample-rate
summary of a raw stream.  int(bitrate/1000) truncates toward zero. -/
def getStreamInfo (s : RawStream) : String :=
  if s.codec ≠ "" then
    let si := pyTitle s.codec
    let si := if s.bitrate > 0 then si ++ " " ++ toString (Int.tdiv s.bitrate 1000) ++ "kbps" else si
    let si := if s.channels > 0 then si ++ " " ++ toString s.channels ++ " channels" else si
    if s.samplerate > 0 then si ++ " " ++ toString s.samplerate ++ "Hz" else si
  else ""

/-- The per-stream Track built by the loop body of KodiDevice.audio_tracks. -/
def mkAudioTrack (t : LangTables) (appLanguage : Option String) (s : RawStream) : Track :=
  let stream_name := if s.name ≠ "" then s.name else getStreamInfo s
  let language_name := if s.language ≠ "" then getLanguageName t s.language appLanguage else s.language
  { index := s.index, language_name := language_name, stream_name := stream_name }

/-- The per-stream Track built by the loop body of KodiDevice.subtitle_tracks. -/
def mkSubtitleTrack (t : LangTables) (appLanguage : Option String) (s : RawStream) : Track :=
  let language_name := if s.language ≠ "" then getLanguageName t s.language appLanguage else s.language
  { index := s.index, language_name := language_name, stream_name := s.name
    forced := some s.isforced, impaired := some s.isimpaired, default := some s.isdefault }

/-- The accumulation loop shared by audio_tracks and subtitle_tracks: build the
track of each stream, flagging a duplicate whenever its computed display name
already occurs among the tracks accumulated so far. -/
def trackLoop (mk : RawStream → Track) (cfg : StreamCfg) :
    List RawStream → List Track → Bool → List Track × Bool
  | [], acc, dup => (acc, dup)
  | s :: rest, acc, dup =>
      let tr := mk s
      let dup2 := dup || decide (tr.trackName cfg ∈ acc.map (fun x => x.trackName cfg))
      trackLoop mk cfg rest (acc ++ [tr]) dup2

/-- Index tag applied to a stream name when duplicates were detected. -/
def tagTrack (tr : Track) : Track :=
  { tr with stream_name := toString tr.index ++ ":" ++ tr.stream_name }

/-- KodiDevice.audio_tracks: the available audio tracks; when any computed
display name collides with another, every stream name gets the index tag. -/
def audioTracks (t : LangTables) (appLanguage : Option String) (cfg : StreamCfg)
    (streams : List RawStream) : List Track :=
  let r := trackLoop (mkAudioTrack t appLanguage) cfg streams [] false
  if r.2 then r.1.map tagTrack else r.1

/-- KodiDevice.subtitle_tracks: the synthetic disabled entry comes first; the
duplicate check uses the audio stream preference (as in the source, line 1438),
display later uses the subtitle preference. -/
def subtitleTracks (t : LangTables) (appLanguage : Option String) (audioCfg : StreamCfg)
    (streams : List RawStream) : List Track :=
  let r := trackLoop (mkSubtitleTrack t appLanguage) audioCfg streams
    [disabledTrack t appLanguage] false
  if r.2 then r.1.map tagTrack else r.1

/-- KodiDevice.seek: the Player.Seek call sent for a target position, or none
when no player is active or no position is given.  divmod is Python floor
division and matching remainder (Int.fdiv / Int.fmod). -/
def seekCall (players : Option (List Nat)) (mediaPosition : Option Int) :
    Option (Nat × Int × Int × Int × Int) :=
  match players, mediaPosition with
  | none, _ => none
  | some [], _ => none
  | some _, none => none
  | some (p :: _), some pos =>
      let m0 := Int.fdiv pos 60
      let s := Int.fmod pos 60
      let h := Int.fdiv m0 60
      let m := Int.fmod m0 60
      some (p, h, m, s, 0)

/-- The artwork-reference selection of KodiDevice._update_states (lines
943-951): look up the configured artwork type in the art map; only when the
configured type is "fanart" and the entry is missing fall back to the item
fan-art field; a missing or empty candidate then falls back to the item
thumbnail; an empty final value counts as no artwork. -/
def selectArtwork (art : List (String × String)) (itemFanart itemThumbnail : Option String)
    (artworkType : String) : Option String :=
  let thumb := lookupStr art artworkType
  let thumb := if thumb = none ∧ artworkType = "fanart" then itemFanart else thumb
  let thumb := if thumb = none ∨ thumb = some "" then itemThumbnail else thumb
  if thumb = some "" then none else thumb

/-- Modelled from the spec: the artwork fallback chain as the specification
states it, for comparison with selectArtwork.  Prefer the configured type,
else the fan-art field, else the thumbnail, an empty string counting as
absent at every step. -/
def specSelectArtwork (art : List (String × String)) (itemFanart itemThumbnail : Option String)
    (artworkType : String) : Option String :=
  if strTruthy (lookupStr art artworkType) then lookupStr art artworkType
  else if strTruthy itemFanart then itemFanart
  else if strTruthy itemThumbnail then itemThumbnail
  else none

/-- Media-player states used by the driver (ucapi MediaStates). -/
inductive MS
  | off
  | on
  | playing
  | paused
  | buffering
  | unknown
deriving Repr, DecidableEq

/-- Events emitted to the in-process subscribers. -/
inductive EventKind
  | connecting
  | connected
  | disconnected
  | error
  | update
deriving Repr, DecidableEq

/-- ucapi status codes returned to the caller of a wrapped command. -/
inductive UStatus
  | ok
  | badRequest
deriving Repr, DecidableEq

/-- Outcome of one invocation of an underlying command coroutine: success, a
transport-category error (TransportError / ProtocolError / ServerTimeoutError),
or any other exception. -/
inductive CallOutcome
  | ok
  | transportErr
  | otherErr
deriving Repr, DecidableEq

/-- The connection-ready future: absent (None), pending (unresolved) or
resolved (set_result was called). -/
inductive FutureState
  | absent
  | pending
  | resolved
deriving Repr, DecidableEq

/-- The slice of device-session state touched by retry_call_command and the
retry wrapper, with ghost counters for scheduled connect tasks. -/
structure DispatchState where
  reconnectRetry : Nat := 0
  connectionStatus : FutureState := .absent
  connectLockHeld : Bool := false
  buffered : List ℚ := []
  connectTasks : Nat := 0
deriving Repr, DecidableEq

/-- What one run of retry_call_command hands back to the wrapper: a returned
status, or an exception escaping (transport-category or other). -/
inductive RunResult
  | returned (s : UStatus)
  | raisedTransport
  | raisedOther
deriving Repr, DecidableEq

/-- Result of one run of retry_call_command: final state, its RunResult, the
number of command invocations, and the time budget spent waiting on the
connection-ready future (none when no wait happened). -/
structure DispatchResult where
  st : DispatchState
  result : RunResult
  funcCalls : Nat
  waitBound : Option ℚ
deriving Repr, DecidableEq

/-- retry_call_command of kodi.py: reset the reconnect counter, create the
connection-ready future if absent, schedule a connect task unless one holds
the connect lock; a bufferized command is recorded under its submission
timestamp and succeeds immediately; otherwise wait at most max(timeout-1, 1)
seconds for the connection-ready future (a timeout is only logged) and then
invoke the command exactly once. -/
def retryCallCommand (timeout : ℚ) (bufferize : Bool) (now : ℚ) (funcOutcome : CallOutcome)
    (st : DispatchState) : DispatchResult :=
  let st := { st with reconnectRetry := 0 }
  let st := if st.connectionStatus = .absent then { st with connectionStatus := .pending } else st
  let st := if ¬ st.connectLockHeld then { st with connectTasks := st.connectTasks + 1 } else st
  if bufferize then
    { st := { st with buffered := st.buffered ++ [now] }
      result := .returned UStatus.ok, funcCalls := 0, waitBound := none }
  else
    let wb := max (timeout - 1) 1
    match funcOutcome with
    | .ok => { st := st, result := .returned UStatus.ok, funcCalls := 1, waitBound := some wb }
    | .transportErr => { st := st, result := .raisedTransport, funcCalls := 1, waitBound := some wb }
    | .otherErr => { st := st, result := .raisedOther, funcCalls := 1, waitBound := some wb }

/-- Result of the retry decorator wrapper around a command: state, the
outcome (a returned status, or an exception escaping the wrapper), total
command invocations, how many times the retry_call_command path ran, and the
wait bounds used. -/
structure WrapperResult where
  st : DispatchState
  outcome : RunResult
  funcCalls : Nat
  retryPathRuns : Nat
  waitBounds : List ℚ
deriving Repr, DecidableEq

/-- The wrapper produced by the retry decorator of kodi.py.  connected is the
transport-connected flag; first and second are the outcomes of the first and
(when reached) second invocation of the wrapped command.  A transport-category
failure of the first invocation is retried through retry_call_command inside
the first except handler; a second transport-category failure there is caught
and returns BAD_REQUEST, but any other exception raised during the retry
escapes the wrapper, since the sibling except-Exception clause only covers
exceptions raised in the try body. -/
def retryWrapper (timeout : ℚ) (bufferize : Bool) (connected : Bool)
    (first second : CallOutcome) (now1 now2 : ℚ) (st : DispatchState) : WrapperResult :=
  if connected then
    match first with
    | .ok =>
        { st := st, outcome := .returned UStatus.ok, funcCalls := 1, retryPathRuns := 0
          waitBounds := [] }
    | .transportErr =>
        let r2 := retryCallCommand timeout bufferize now2 second st
        match r2.result with
        | .returned s =>
            { st := r2.st, outcome := .returned s, funcCalls := 1 + r2.funcCalls
              retryPathRuns := 1, waitBounds := r2.waitBound.toList }
        | .raisedTransport =>
            { st := r2.st, outcome := .returned UStatus.badRequest
              funcCalls := 1 + r2.funcCalls, retryPathRuns := 1
              waitBounds := r2.waitBound.toList }
        | .raisedOther =>
            { st := r2.st, outcome := .raisedOther, funcCalls := 1 + r2.funcCalls
              retryPathRuns := 1, waitBounds := r2.waitBound.toList }
    | .otherErr =>
        { st := st, outcome := .returned UStatus.badRequest, funcCalls := 1
          retryPathRuns := 0, waitBounds := [] }
  else
    let r1 := retryCallCommand timeout bufferize now1 first st
    match r1.result with
    | .returned s =>
        { st := r1.st, outcome := .returned s, funcCalls := r1.funcCalls, retryPathRuns := 1
          waitBounds := r1.waitBound.toList }
    | .raisedTransport =>
        let r2 := retryCallCommand timeout bufferize now2 second r1.st
        match r2.result with
        | .returned s =>
            { st := r2.st, outcome := .returned s, funcCalls := r1.funcCalls + r2.funcCalls
              retryPathRuns := 2, waitBounds := r1.waitBound.toList ++ r2.waitBound.toList }
        | .raisedTransport =>
            { st := r2.st, outcome := .returned UStatus.badRequest
              funcCalls := r1.funcCalls + r2.funcCalls, retryPathRuns := 2
              waitBounds := r1.waitBound.toList ++ r2.waitBound.toList }
        | .raisedOther =>
            { st := r2.st, outcome := .raisedOther, funcCalls := r1.funcCalls + r2.funcCalls
              retryPathRuns := 2, waitBounds := r1.waitBound.toList ++ r2.waitBound.toList }
    | .raisedOther =>
        { st := r1.st, outcome := .returned UStatus.badRequest, funcCalls := r1.funcCalls
          retryPathRuns := 1, waitBounds := r1.waitBound.toList }

/-- Outcome of the websocket handshake inside connect(). -/
inductive ConnectOutcome
  | success
  | connError
  | otherError
deriving Repr, DecidableEq

/-- Outcome of closing the transport inside disconnect(). -/
inductive CloseOutcome
  | closeOk
  | cannotConnect
  | invalidAuth
  | closeOther
deriving Repr, DecidableEq

/-- Maximum reconnect retries of the watchdog (CONNECTION_RETRIES). -/
def CONNECTION_RETRIES : Nat := 30

/-- Connection-lifecycle slice of the device session, with ghost counters for
sockets opened, websocket connect attempts, transport closes, cached-state
resets and watchdog-issued reconnects, plus a ghost log of emitted events. -/
structure ConnState where
  connectLockHeld : Bool := false
  hasConnection : Bool := false
  wsConnected : Bool := false
  connectError : Bool := false
  connectionStatus : FutureState := .absent
  reconnectRetry : Nat := 0
  websocketTask : Bool := false
  updatePositionTask : Bool := false
  available : Bool := true
  attrState : MS := .off
  appLanguage : Option String := none
  updateLockHeld : Bool := false
  socketsOpened : Nat := 0
  wsAttempts : Nat := 0
  closeCalls : Nat := 0
  resets : Nat := 0
  watchdogReconnects : Nat := 0
  emitted : List EventKind := []
deriving Repr, DecidableEq

/-- KodiDevice._ping: a successful ping clears the connect-error flag; a failed
ping flags it once and tears the connection down (_clear_connection with
close), leaving reconnection to the next watchdog tick. -/
def pingStep (st : ConnState) (pingOk : Bool) : ConnState :=
  if pingOk then { st with connectError := false }
  else
    let st := if ¬ st.connectError then { st with connectError := true } else st
    { st with resets := st.resets + 1, closeCalls := st.closeCalls + 1, wsConnected := false }

/-- The finally block of KodiDevice.connect: cancel the watchdog when the
retry budget is exhausted with a connect error, otherwise start it if absent;
mark the session available, emit CONNECTED, and release the connect lock if
anyone holds it. -/
def connectFinally (st : ConnState) : ConnState :=
  let st :=
    if st.reconnectRetry ≥ CONNECTION_RETRIES ∧ st.connectError then
      { st with websocketTask := false }
    else if ¬ st.websocketTask then { st with websocketTask := true }
    else st
  let st := { st with available := true, emitted := st.emitted ++ [EventKind.connected] }
  if st.connectLockHeld then { st with connectLockHeld := false } else st

/-- KodiDevice.connect: single-flight connect guarded by the connect lock.
mediaUpdateCfg is device_config.media_update_task; outcome is the result of
the websocket handshake; pingOk the result of the post-handshake liveness
probe.  The nested state-refresh pass of a successful connect is part of the
update-state model and not repeated here.  Returns the new state and the
boolean result of connect(). -/
def connect (mediaUpdateCfg : Bool) (st : ConnState) (outcome : ConnectOutcome)
    (pingOk : Bool) : ConnState × Bool :=
  if st.connectLockHeld then (connectFinally st, true)
  else
    let st := { st with connectLockHeld := true }
    if st.hasConnection ∧ st.wsConnected then (connectFinally st, true)
    else
      let st := { st with connectError := false }
      let st := { st with closeCalls := if st.hasConnection then st.closeCalls + 1 else st.closeCalls }
      let st := { st with hasConnection := true, wsConnected := false,
                          socketsOpened := st.socketsOpened + 1 }
      let st := { st with wsAttempts := st.wsAttempts + 1 }
      match outcome with
      | .success =>
          let st := { st with wsConnected := true, connectError := false }
          let st := pingStep st pingOk
          let st := if ¬ st.websocketTask then { st with websocketTask := true } else st
          let st := if st.connectionStatus = .pending then { st with connectionStatus := .resolved }
                    else st
          let st :=
            if mediaUpdateCfg ∧ ¬ st.updatePositionTask then { st with updatePositionTask := true }
            else if ¬ mediaUpdateCfg ∧ st.updatePositionTask then
              { st with updatePositionTask := false }
            else st
          (connectFinally st, true)
      | .connError =>
          let st := if st.connectionStatus = .absent ∨ st.connectionStatus = .resolved then
                      { st with connectionStatus := .pending }
                    else st
          let st := if ¬ st.connectError then { st with connectError := true } else st
          let st := { st with resets := st.resets + 1 }
          (connectFinally st, false)
      | .otherError => (connectFinally st, false)

/-- The finally block of KodiDevice.disconnect. -/
def disconnectFinally (st : ConnState) : ConnState :=
  { st with available := false, websocketTask := false, appLanguage := none,
            reconnectRetry := 0, updateLockHeld := false }

/-- KodiDevice.disconnect: cancel the watchdog task, close the transport when
one exists (connection and auth errors are caught and logged, any other close
failure propagates after the finally block), and reset availability.  The
returned boolean is true when an exception escapes the call. -/
def disconnect (st : ConnState) (closeOutcome : CloseOutcome) : ConnState × Bool :=
  if st.hasConnection then
    let st := { st with closeCalls := st.closeCalls + 1 }
    match closeOutcome with
    | .closeOk => (disconnectFinally { st with hasConnection := false, attrState := .off }, false)
    | .cannotConnect => (disconnectFinally st, false)
    | .invalidAuth => (disconnectFinally st, false)
    | .closeOther => (disconnectFinally st, true)
  else
    (disconnectFinally { st with attrState := .off }, false)

/-- Oracle for one watchdog tick: the handshake outcome of a reconnect attempt
and the result of the liveness probe. -/
structure WatchdogOracle where
  outcome : ConnectOutcome := .success
  pingOk : Bool := true
deriving Repr, DecidableEq

/-- KodiDevice._reconnect_websocket_if_disconnected: one watchdog tick.
Returns the successor state and whether the watchdog keeps running.  The
shielded connect() completes even when the bounded wait around it gives up,
so its state effects are applied unconditionally. -/
def reconnectIfDisconnected (mediaUpdateCfg : Bool) (st : ConnState) (o : WatchdogOracle) :
    ConnState × Bool :=
  if ¬ st.wsConnected ∧ st.reconnectRetry ≥ CONNECTION_RETRIES then (st, false)
  else if ¬ st.wsConnected then
    let st := { st with reconnectRetry := st.reconnectRetry + 1, available := false }
    let st := if st.connectionStatus = .absent ∨ st.connectionStatus = .resolved then
                { st with connectionStatus := .pending }
              else st
    let st := { st with watchdogReconnects := st.watchdogReconnects + 1 }
    ((connect mediaUpdateCfg st o.outcome o.pingOk).1, true)
  else
    let st := if st.reconnectRetry > 0 then { st with reconnectRetry := 0 } else st
    (pingStep st o.pingOk, true)

/-- KodiDevice.start_watchdog, fuel-bounded: run ticks until the fuel is spent
or a tick reports false, in which case the task clears its own handle and
stops. -/
def watchdogRun (mediaUpdateCfg : Bool) (oracle : Nat → WatchdogOracle) :
    Nat → ConnState → ConnState
  | 0, st => st
  | n + 1, st =>
      let r := reconnectIfDisconnected mediaUpdateCfg st (oracle n)
      if r.2 then watchdogRun mediaUpdateCfg oracle n r.1
      else { r.1 with websocketTask := false }

/-- Upper-case hexadecimal digit. -/
def hexDigit (n : Nat) : Char :=
  if n < 10 then Char.ofNat (48 + n) else Char.ofNat (55 + n)

/-- urllib.parse.quote_plus on one ASCII character. -/
def quotePlusChar (c : Char) : List Char :=
  if c.isAlphanum ∨ c = '_' ∨ c = '.' ∨ c = '-' ∨ c = '~' then [c]
  else if c = ' ' then ['+']
  else
    let n := c.toNat % 256
    ['%', hexDigit (n / 16), hexDigit (n % 16)]

/-- urllib.parse.quote_plus restricted to ASCII input. -/
def quotePlus (s : String) : String :=
  String.mk (s.data.map quotePlusChar).flatten

/-- Value of an ASCII hexadecimal digit. -/
def hexVal (c : Char) : Option Nat :=
  if '0' ≤ c ∧ c ≤ '9' then some (c.toNat - 48)
  else if 'A' ≤ c ∧ c ≤ 'F' then some (c.toNat - 55)
  else if 'a' ≤ c ∧ c ≤ 'f' then some (c.toNat - 87)
  else none

/-- urllib.parse.unquote on a character list: decode percent-escapes, leave
everything else alone. -/
def unquoteChars : List Char → List Char
  | [] => []
  | '%' :: a :: b :: rest =>
      match hexVal a, hexVal b with
      | some x, some y => Char.ofNat (16 * x + y) :: unquoteChars rest
      | _, _ => '%' :: unquoteChars (a :: b :: rest)
  | c :: rest => c :: unquoteChars rest
termination_by l => l.length

/-- urllib.parse.unquote restricted to ASCII escapes. -/
def unquoteStr (s : String) : String :=
  String.mk (unquoteChars s.data)

/-- The scheme component of urllib.parse.urlparse: the part before the first
colon when it is a well-formed scheme name, lower-cased, else empty. -/
def urlScheme (s : String) : String :=
  let pre := s.takeWhile (fun c => c ≠ ':')
  if pre.length < s.length ∧ pre ≠ "" ∧
      pre.data.all (fun c => c.isAlphanum ∨ c = '+' ∨ c = '-' ∨ c = '.') ∧
      (pre.data.headD 'a').isAlpha then
    pre.toLower
  else ""

/-- KodiConnection.thumbnail_url: only references in the image scheme resolve
to a URL under the HTTP image endpoint; anything else resolves to None. -/
def thumbnailUrl (imageBase : String) (thumbnail : Option String) : Option String :=
  match thumbnail with
  | none => none
  | some t =>
      if urlScheme t = "image" then some (imageBase ++ "/" ++ quotePlus t) else none

/-- Python str.removeprefix. -/
def pyRemoveStart (s pre : String) : String :=
  if s.startsWith pre then s.drop pre.length else s

/-- Python str.removesuffix. -/
def pyRemoveEnd (s suf : String) : String :=
  if suf ≠ "" ∧ s.endsWith suf then s.dropRight suf.length else s

/-- Python substring containment test (the in operator on strings). -/
def hasSub (s sub : String) : Bool :=
  (s.splitOn sub).length > 1

/-- Media types of the normalized attribute model. -/
inductive MT
  | music
  | video
  | movie
  | tvshow
deriving Repr, DecidableEq

/-- The KODI_MEDIA_TYPES table of const.py. -/
def kodiMediaTypes : List (String × MT) :=
  [("music", .music), ("artist", .music), ("album", .music), ("song", .music),
   ("video", .video), ("set", .music), ("musicvideo", .video), ("movie", .movie),
   ("tvshow", .tvshow), ("season", .tvshow), ("episode", .tvshow), ("channel", .tvshow),
   ("audio", .music)]

/-- KODI_MEDIA_TYPES.get(item type, MediaType.VIDEO). -/
def kodiMediaType (typ : Option String) : MT :=
  match typ with
  | none => .video
  | some t => (lookupStr kodiMediaTypes t).getD .video

/-- Keys of the outgoing update payload (media-player attributes, sensor and
select entities, plus the raw media_position_updated_at key). -/
inductive AttrKey
  | state
  | volume
  | muted
  | mediaPosition
  | mediaPositionUpdatedAt
  | mediaDuration
  | mediaType
  | mediaImageUrl
  | mediaTitle
  | mediaArtist
  | mediaAlbum
  | source
  | sourceList
  | soundMode
  | soundModeList
  | sensorAudioStream
  | sensorSubtitleStream
  | sensorChapter
  | sensorVideoInfo
  | sensorAudioInfo
  | sensorVolume
  | sensorVolumeMuted
  | selectAudioStream
  | selectSubtitleStream
  | selectChapter
deriving Repr, DecidableEq

/-- Payload of a select entity update: either sub-key may be absent. -/
structure SelInfo where
  currentOption : Option String := none
  options : Option (List String) := none
deriving Repr, DecidableEq

/-- Values of the outgoing update payload; vNone is Python None. -/
inductive AttrValue
  | vNone
  | vStr (s : String)
  | vInt (n : Int)
  | vBool (b : Bool)
  | vNat (n : Nat)
  | vState (s : MS)
  | vMediaType (t : MT)
  | vList (l : List String)
  | vSel (s : SelInfo)
deriving Repr, DecidableEq

/-- Encode an optional string the way Python stores it in the payload. -/
def strVal : Option String → AttrValue
  | none => .vNone
  | some s => .vStr s

/-- Encode an optional integer the way Python stores it in the payload. -/
def intVal : Option Int → AttrValue
  | none => .vNone
  | some n => .vInt n

/-- Python-dict insertion on the payload: replace in place or append. -/
def dinsert (m : List (AttrKey × AttrValue)) (k : AttrKey) (v : AttrValue) :
    List (AttrKey × AttrValue) :=
  match m with
  | [] => [(k, v)]
  | (k0, v0) :: rest => if k0 = k then (k0, v) :: rest else (k0, v0) :: dinsert rest k v

/-- Python-dict lookup on the payload. -/
def dget (m : List (AttrKey × AttrValue)) (k : AttrKey) : Option AttrValue :=
  (m.find? (fun p => decide (p.1 = k))).map (fun p => p.2)

/-- An hours / minutes / seconds dictionary from Player.GetProperties. -/
structure Hms where
  hours : Int := 0
  minutes : Int := 0
  seconds : Int := 0
deriving Repr, DecidableEq

/-- hours * 3600 + minutes * 60 + seconds, as computed in _update_states. -/
def Hms.toSeconds (t : Hms) : Int :=
  t.hours * 3600 + t.minutes * 60 + t.seconds

/-- The current video stream dictionary. -/
structure VideoStream where
  width : Int := 0
  height : Int := 0
  codec : String := ""
deriving Repr, DecidableEq

/-- The player-properties dictionary fetched on each synchronization pass.
An Option none field stands for an absent key or empty sub-dictionary (a JSON
null for currentaudiostream, which the source treats separately, is not
modelled). -/
structure RawProps where
  time : Option Hms := none
  totaltime : Option Hms := none
  speed : Int := 0
  live : Bool := false
  currentaudiostream : Option RawStream := none
  currentsubtitle : Option RawStream := none
  subtitleenabled : Bool := false
  audiostreams : List RawStream := []
  subtitles : List RawStream := []
  currentvideostream : Option VideoStream := none
deriving Repr, DecidableEq

/-- A chapter entry of Player.GetChapters. -/
structure Chapter where
  name : String := ""
  time : Int := 0
deriving Repr, DecidableEq

/-- The playing-item dictionary fetched on each synchronization pass. -/
structure RawItem where
  title : Option String := none
  label : Option String := none
  file : Option String := none
  typ : Option String := none
  art : List (String × String) := []
  fanart : Option String := none
  thumbnail : Option String := none
  artist : List String := []
  album : Option String := none
  season : Option Int := none
  episode : Option Int := none
  movieid : Int := 0
deriving Repr, DecidableEq

/-- Per-device configuration fields consumed by kodi.py.  The artwork types,
download and media-update toggles come from config.py; the stream-name,
language-preference and sensor-stream fields are referenced by kodi.py but
their declaration is not part of the source snapshot, so their shape is
modelled from the spec (stream-naming preference, separate TV-show artwork
preference, periodic-refresh toggle). -/
structure DevConfig where
  artwork_type : String := "thumb"
  artwork_type_tvshows : String := "tvshow.poster"
  media_update_task : Bool := false
  download_artwork : Bool := false
  show_stream_name : Bool := false
  show_stream_language_name : Bool := false
  sensor_audio_stream_config : StreamCfg := .languageName
  sensor_subtitle_stream_config : StreamCfg := .languageName
  log_additional_data : Bool := false
deriving Repr, DecidableEq

/-- Static context of a device session: configuration, language tables, and
the HTTP image endpoint used by thumbnail_url. -/
structure Ctx where
  cfg : DevConfig := {}
  lt : LangTables := {}
  imageBase : String := "http://host:8080/image"
deriving Repr, DecidableEq

/-- The cached snapshot and synchronizer-visible state of a KodiDevice. -/
structure DevState where
  wsConnectedFlag : Bool := true
  players : Option (List Nat) := none
  properties : Option RawProps := none
  item : Option RawItem := none
  appProperties : Option (Int × Bool) := none
  volume : Int := 0
  isVolumeMuted : Bool := false
  mediaPosition : Option Int := some 0
  mediaDuration : Int := 0
  mediaPositionUpdatedAt : Option Nat := none
  mediaType : MT := .video
  mediaTitle : Option String := some ""
  mediaImageUrl : String := ""
  mediaImageData : String := ""
  mediaArtist : Option String := some ""
  mediaAlbum : Option String := some ""
  thumbnail : Option String := none
  attrState : MS := .off
  temporaryTitle : Option String := none
  chapters : Option (List Chapter) := none
  source : Option String := none
  audioStream : String := ""
  subtitleStream : String := ""
  appLanguage : Option String := none
  updateStateRetry : Nat := 0
  positionTimestamp : Option ℚ := none
  updateLockHeld : Bool := false
  updateLockTime : ℚ := 0
deriving Repr, DecidableEq

/-- Oracle for one synchronization pass: the results of every network await
made by _update_states, plus the clock values observed. -/
structure RawData where
  players : Option (List Nat) := none
  appVolume : Int := 0
  appMuted : Bool := false
  appLanguageRes : Option String := none
  props : RawProps := {}
  item : RawItem := {}
  availableArt : Option (List String) := none
  artDownload : Option (String × String) := none
  chaptersRes : Option (List Chapter) := none
  nowTimestamp : Nat := 0
  nowTime : ℚ := 0
  elapsedSeconds : Int := 0
deriving Repr, DecidableEq

/-- KodiDevice.get_state: derived playback state. -/
def getState (players : Option (List Nat)) (props : Option RawProps) : MS :=
  match players with
  | none => .off
  | some [] => .on
  | some (_ :: _) =>
      match props with
      | none => .playing
      | some p => if p.speed = 0 then .paused else .playing

/-- KodiDevice.video_info: resolution and codec of the current video stream. -/
def videoInfoOf (props : Option RawProps) : String :=
  match props with
  | none => ""
  | some p =>
      match p.currentvideostream with
      | none => ""
      | some vs => toString vs.width ++ "x" ++ toString vs.height ++ " " ++ vs.codec

/-- KodiDevice.audio_info: stream info of the current audio stream. -/
def audioInfoOf (props : Option RawProps) : String :=
  match props with
  | none => ""
  | some p =>
      match p.currentaudiostream with
      | none => ""
      | some s => getStreamInfo s

/-- KodiDevice._get_language: display language of a stream dictionary,
preferring either the language name or the stream name. -/
def getLanguage (t : LangTables) (appLang : Option String) (info : Option RawStream)
    (languageFirst : Bool) : String :=
  let name := pyTitle ((info.map (fun s => s.name)).getD "")
  let lang := pyTitle (getLanguageName t ((info.map (fun s => s.language)).getD "") appLang)
  if languageFirst then (if lang ≠ "" then lang else name)
  else (if name ≠ "" then name else lang)

/-- The audio / subtitle summary parts shared by get_streams_info and
get_streams_name. -/
def streamsParts (t : LangTables) (appLang : Option String) (p : RawProps)
    (languageFirst : Bool) : List String :=
  let audio := getLanguage t appLang p.currentaudiostream languageFirst
  let cs := p.currentsubtitle
  let sub :=
    if p.subtitleenabled then
      let s := getLanguage t appLang cs languageFirst
      let s := if (cs.map (fun x => x.isforced)).getD false then s ++ " (forced)" else s
      if (cs.map (fun x => x.isimpaired)).getD false then s ++ " (impaired)" else s
    else ""
  (if audio ≠ "" then [audio] else []) ++ (if sub ≠ "" then [sub] else [])

/-- KodiDevice.get_streams_info: None when stream names are not shown. -/
def getStreamsInfo (c : Ctx) (appLang : Option String) (p : RawProps) : Option String :=
  if c.cfg.show_stream_name then
    some (String.intercalate " - " (streamsParts c.lt appLang p c.cfg.show_stream_language_name))
  else none

/-- KodiDevice.get_streams_name: like get_streams_info but always
name-first. -/
def getStreamsName (c : Ctx) (appLang : Option String) (p : RawProps) : Option String :=
  if c.cfg.show_stream_name then
    some (String.intercalate " - " (streamsParts c.lt appLang p false))
  else none

/-- The chapter-search loop of KodiDevice.current_chapter. -/
def chapterScan (found : Chapter) (pos : Int) : List Chapter → Chapter
  | [] => found
  | ch :: rest => if pos ≤ ch.time then found else chapterScan ch pos rest

/-- KodiDevice.current_chapter at a given playback position. -/
def currentChapterAt (chapters : Option (List Chapter)) (pos : Int) : Option String :=
  match chapters with
  | none => none
  | some [] => none
  | some (c0 :: rest) => some ((chapterScan c0 pos (c0 :: rest)).name)

/-- KodiDevice.current_media_position: the cached position advanced by the
elapsed wall time while playing, bounded by the duration. -/
def currentMediaPositionAt (state : MS) (mediaPosition : Int) (updatedAt : Option Nat)
    (duration : Int) (elapsed : Int) : Int :=
  if state ≠ .playing ∨ updatedAt = none then mediaPosition
  else
    let p := mediaPosition + elapsed
    if duration > 0 ∧ p < duration then p else mediaPosition

/-- KodiDevice.source_list: chapter names. -/
def sourceListOf (chapters : Option (List Chapter)) : List String :=
  match chapters with
  | none => []
  | some l => l.map (fun c => c.name)

/-- KodiDevice.current_audio_track: the audio track whose index matches the
current audio stream (an absent stream dictionary defaults to index 0). -/
def currentAudioTrackOf (cas : Option RawStream) (tracks : List Track) : Option Track :=
  let idx := (cas.map (fun s => s.index)).getD 0
  tracks.find? (fun t => decide (t.index = idx))

/-- KodiDevice.current_subtitle_track: the synthetic disabled entry when
subtitles are off, else a track built from the current subtitle stream. -/
def currentSubtitleTrackOf (t : LangTables) (appLang : Option String) (p : RawProps) : Track :=
  if ¬ p.subtitleenabled then disabledTrack t appLang
  else
    let cs := p.currentsubtitle
    let language_name := getLanguageName t ((cs.map (fun s => s.language)).getD "") appLang
    let stream_name := (cs.map (fun s => s.name)).getD ""
    let index := (cs.map (fun s => s.index)).getD 0
    let tr : Track := { index := index, language_name := language_name, stream_name := stream_name }
    let tr := if (cs.map (fun s => s.isforced)).getD false then { tr with forced := some true } else tr
    let tr := if (cs.map (fun s => s.isimpaired)).getD false then { tr with impaired := some true } else tr
    if (cs.map (fun s => s.isdefault)).getD false then { tr with default := some true } else tr

/-- KodiDevice.media_artwork: embedded data when download_artwork is set,
else the image URL. -/
def mediaArtworkOf (c : Ctx) (st : DevState) : String :=
  if c.cfg.download_artwork then st.mediaImageData else st.mediaImageUrl

/-- KodiDevice._reset_state: clear the cached snapshot and release the update
lock; the players argument mirrors the Python default of None. -/
def resetState (st : DevState) (players : Option (List Nat)) : DevState :=
  { st with players := players, properties := none, item := none, appProperties := none,
            mediaPosition := none, mediaPositionUpdatedAt := none, temporaryTitle := none,
            updateStateRetry := 0, chapters := none, source := none,
            audioStream := "", subtitleStream := "", updateLockHeld := false }

/-- The artwork block of _update_states (lines 925-1003 without the type
dispatch done by the caller): when the selected reference changed, store it,
resolve the image URL, run the smb poster lookup for movies and the optional
download, and append the artwork payload entry.  An error value models the
uncaught KeyError on a missing item type and the uncaught TypeError of the
substring test on a vanished reference, both of which abandon the pass. -/
def artworkSection (c : Ctx) (st : DevState) (raw : RawData)
    (u : List (AttrKey × AttrValue)) (artworkType : String) :
    Except DevState (DevState × List (AttrKey × AttrValue)) :=
  let thumbnail := selectArtwork raw.item.art raw.item.fanart raw.item.thumbnail artworkType
  if thumbnail = st.thumbnail then .ok (st, u)
  else
    let st := { st with thumbnail := thumbnail,
                        mediaImageUrl := (thumbnailUrl c.imageBase thumbnail).getD "",
                        mediaImageData := "" }
    match raw.item.typ with
    | none => .error st
    | some ty =>
        let smb : Except DevState DevState :=
          if ty = "movie" then
            match thumbnail with
            | none => .error st
            | some tv =>
                if hasSub tv "@smb" then
                  .ok (match raw.availableArt with
                       | some (u0 :: _) =>
                           { st with mediaImageUrl :=
                               unquoteStr (pyRemoveEnd (pyRemoveStart u0 "image://") "/") }
                       | _ => st)
                else .ok st
          else .ok st
        match smb with
        | .error stE => .error stE
        | .ok st =>
            let st :=
              if c.cfg.download_artwork then
                match raw.artDownload with
                | some (ct, b64) =>
                    { st with mediaImageData := "data:" ++ ct ++ ";base64," ++ b64 }
                | none => { st with mediaImageData := "" }
              else st
            .ok (st, dinsert u .mediaImageUrl (.vStr (mediaArtworkOf c st)))

/-- An update payload under construction. -/
abbrev Payload := List (AttrKey × AttrValue)

/-- Output of the active-players branch of one synchronization pass. -/
structure ActiveOut where
  st : DevState
  payload : Payload := []
  artworkResets : List Payload := []
  aborted : Bool := false
  deferredRequested : Bool := false
deriving Repr, DecidableEq

/-- Lines 836-847: application volume and mute diff, and the one-time fetch of
the application language. -/
def stepAppVolume (st : DevState) (raw : RawData) (u : Payload) : DevState × Payload :=
  let st := { st with appProperties := some (raw.appVolume, raw.appMuted) }
  let p1 : DevState × Payload :=
    if st.volume ≠ raw.appVolume then
      ({ st with volume := raw.appVolume }, dinsert u .volume (.vInt raw.appVolume))
    else (st, u)
  let st := p1.1
  let u := p1.2
  let p2 : DevState × Payload :=
    if raw.appMuted ≠ st.isVolumeMuted then
      ({ st with isVolumeMuted := raw.appMuted }, dinsert u .muted (.vBool raw.appMuted))
    else (st, u)
  let st := p2.1
  let st := if st.appLanguage = none then { st with appLanguage := raw.appLanguageRes } else st
  (st, p2.2)

/-- Lines 849-896: remember the previous stream infos, swap in the fresh
player properties, diff position, duration and the two stream-info sensors. -/
def stepProps (st : DevState) (raw : RawData) (u : Payload) : DevState × Payload :=
  let currentVideoInfo := videoInfoOf st.properties
  let currentAudioInfo := audioInfoOf st.properties
  let st := { st with properties := some raw.props }
  let mediaPosition :=
    match raw.props.time with
    | some t => t.toSeconds
    | none => 0
  let p1 : DevState × Payload :=
    if st.mediaPosition ≠ some mediaPosition ∨ st.mediaPositionUpdatedAt = none then
      ({ st with mediaPosition := some mediaPosition,
                 mediaPositionUpdatedAt := some raw.nowTimestamp },
       dinsert (dinsert u .mediaPosition (.vInt mediaPosition))
         .mediaPositionUpdatedAt (.vNat raw.nowTimestamp))
    else (st, u)
  let st := p1.1
  let u := p1.2
  let duration :=
    match raw.props.totaltime with
    | some t => t.toSeconds
    | none => 0
  let p2 : DevState × Payload :=
    if st.mediaDuration ≠ duration then
      ({ st with mediaDuration := duration },
       dinsert (dinsert u .mediaPosition (intVal st.mediaPosition))
         .mediaDuration (.vInt duration))
    else (st, u)
  let st := p2.1
  let u := p2.2
  let u :=
    if currentVideoInfo ≠ videoInfoOf st.properties then
      dinsert u .sensorVideoInfo (.vStr (videoInfoOf st.properties))
    else u
  let u :=
    if currentAudioInfo ≠ audioInfoOf st.properties then
      dinsert u .sensorAudioInfo (.vStr (audioInfoOf st.properties))
    else u
  (st, u)

/-- Lines 898-923: swap in the fresh item and diff the media type. -/
def stepItemType (st : DevState) (raw : RawData) (u : Payload) : DevState × Payload :=
  let st := { st with item := some raw.item }
  let itemType := kodiMediaType raw.item.typ
  if itemType ≠ st.mediaType then
    ({ st with mediaType := itemType }, dinsert u .mediaType (.vMediaType itemType))
  else (st, u)

/-- Lines 1005-1044: title computation, temporary stream-name title, and the
title / artist / album diffs driving the changed-media flag. -/
def stepTitleArtistAlbum (c : Ctx) (st : DevState) (raw : RawData) (u : Payload) :
    DevState × Payload × Bool :=
  let mediaTitle := pyOr (pyOr raw.item.title raw.item.label) raw.item.file
  let st :=
    if c.cfg.show_stream_name then
      match getStreamsName c st.appLanguage raw.props with
      | some sn => if sn ≠ "" then { st with temporaryTitle := some sn } else st
      | none => st
    else st
  let p1 : DevState × Payload × Bool :=
    if mediaTitle ≠ st.mediaTitle then
      ({ st with mediaTitle := mediaTitle }, dinsert u .mediaTitle (strVal mediaTitle), true)
    else (st, u, false)
  let st := p1.1
  let u := p1.2.1
  let changedMedia := p1.2.2
  let posNum : Option Int → Bool := fun o =>
    match o with
    | some n => n > 0
    | none => false
  let mediaArtist : Option String :=
    if raw.item.artist ≠ [] then some (raw.item.artist.headD "")
    else if posNum raw.item.season ∨ posNum raw.item.episode then
      let ma := if posNum raw.item.season then "S" ++ toString (raw.item.season.getD 0) else ""
      let ma := if posNum raw.item.episode then ma ++ "E" ++ toString (raw.item.episode.getD 0)
                else ma
      some ma
    else some ""
  let mediaArtist :=
    if mediaArtist = some "" then getStreamsInfo c st.appLanguage raw.props else mediaArtist
  let p2 : DevState × Payload × Bool :=
    if mediaArtist ≠ st.mediaArtist then
      ({ st with mediaArtist := mediaArtist }, dinsert u .mediaArtist (strVal mediaArtist), true)
    else (st, u, changedMedia)
  let st := p2.1
  let u := p2.2.1
  let changedMedia := p2.2.2
  let mediaAlbum := raw.item.album
  if mediaAlbum ≠ st.mediaAlbum then
    ({ st with mediaAlbum := mediaAlbum }, dinsert u .mediaAlbum (strVal mediaAlbum), true)
  else (st, u, changedMedia)

/-- Lines 1053-1096: on a media change, refresh the chapter list and emit the
chapter select, then the temporary title and the four list payload entries. -/
def stepChapters (c : Ctx) (st : DevState) (raw : RawData) (u : Payload)
    (changedMedia : Bool) (cmp : Int) : DevState × Payload × Option String :=
  let currentChapter0 := currentChapterAt st.chapters cmp
  if changedMedia then
    let st := { st with chapters := none }
    let p1 : DevState × Payload × Option String :=
      match raw.chaptersRes with
      | some (ch0 :: chs) =>
          let st := { st with chapters := some (ch0 :: chs) }
          let cc := currentChapterAt st.chapters cmp
          let u := dinsert u .selectChapter (.vSel
            { currentOption := some (cc.getD "")
              options := some ((ch0 :: chs).map (fun x => x.name)) })
          let st :=
            match cc with
            | some ccv => if ccv ≠ "" then { st with temporaryTitle := some ccv } else st
            | none => st
          (st, u, cc)
      | _ => (st, u, currentChapter0)
    let st := p1.1
    let u := p1.2.1
    let cc := p1.2.2
    let u := if strTruthy st.temporaryTitle then dinsert u .mediaTitle (strVal st.temporaryTitle)
             else u
    let u := dinsert u .sourceList (.vList (sourceListOf st.chapters))
    let audioNames := (audioTracks c.lt st.appLanguage c.cfg.sensor_audio_stream_config
      raw.props.audiostreams).map (fun x => x.trackName c.cfg.sensor_audio_stream_config)
    let u := dinsert u .soundModeList (.vList audioNames)
    let u := dinsert u .selectAudioStream (.vSel { options := some audioNames })
    let subNames := (subtitleTracks c.lt st.appLanguage c.cfg.sensor_audio_stream_config
      raw.props.subtitles).map (fun x => x.trackName c.cfg.sensor_subtitle_stream_config)
    let u := dinsert u .selectSubtitleStream (.vSel { options := some subNames })
    (st, u, cc)
  else (st, u, currentChapter0)

/-- Lines 1098-1107: the paused-chapter temporary title and the source
(chapter) diff. -/
def stepPausedSource (st : DevState) (u : Payload) (currentChapter : Option String)
    (cmp : Int) : DevState × Payload :=
  let p1 : DevState × Payload :=
    if getState st.players st.properties = MS.paused ∧ strTruthy currentChapter then
      let st := { st with temporaryTitle := currentChapter }
      (st, dinsert u .mediaTitle (strVal st.temporaryTitle))
    else (st, u)
  let st := p1.1
  let u := p1.2
  if st.source ≠ currentChapter then
    let st := { st with source := currentChapter }
    let u := dinsert u .source (strVal currentChapter)
    let st := { st with temporaryTitle := currentChapter }
    let u := dinsert u .mediaTitle (strVal st.temporaryTitle)
    (st, dinsert u .sensorChapter (strVal (currentChapterAt st.chapters cmp)))
  else (st, u)

/-- Lines 1109-1135: the current audio-track and subtitle-track diffs, with
the current-option merge into any select payload already present. -/
def stepAudioSub (c : Ctx) (st : DevState) (raw : RawData) (u : Payload) :
    DevState × Payload :=
  let audioTrks := audioTracks c.lt st.appLanguage c.cfg.sensor_audio_stream_config
    raw.props.audiostreams
  let newAudioTrack := currentAudioTrackOf raw.props.currentaudiostream audioTrks
  let newAudioName :=
    match newAudioTrack with
    | some t => t.trackName c.cfg.sensor_audio_stream_config
    | none => ""
  let audioCond : Bool :=
    match newAudioTrack with
    | some t => decide (st.audioStream ≠ t.trackName c.cfg.sensor_audio_stream_config)
    | none => decide (st.audioStream ≠ "")
  let p1 : DevState × Payload :=
    if audioCond then
      let st := { st with audioStream := newAudioName }
      let u := dinsert u .soundMode (.vStr newAudioName)
      let u := dinsert u .sensorAudioStream (.vStr newAudioName)
      let sel : SelInfo :=
        match dget u .selectAudioStream with
        | some (.vSel s) => s
        | _ => {}
      (st, dinsert u .selectAudioStream (.vSel { sel with currentOption := some newAudioName }))
    else (st, u)
  let st := p1.1
  let u := p1.2
  let newSubName := (currentSubtitleTrackOf c.lt st.appLanguage raw.props).trackName
    c.cfg.sensor_subtitle_stream_config
  if st.subtitleStream ≠ newSubName then
    let st := { st with subtitleStream := newSubName }
    let u := dinsert u .sensorSubtitleStream (.vStr newSubName)
    let sel : SelInfo :=
      match dget u .selectSubtitleStream with
      | some (.vSel s) => s
      | _ => {}
    (st, dinsert u .selectSubtitleStream (.vSel { sel with currentOption := some newSubName }))
  else (st, u)

/-- The active-players branch of _update_states (lines 835-1150): fetch
application properties, player properties and item metadata, diff every
derived value against the cached snapshot and build the payload.  The
five-second debounced clearing of the temporary title runs as a later task
and is not part of the pass. -/
def activeBranch (c : Ctx) (st : DevState) (raw : RawData) : ActiveOut :=
  let r1 := stepAppVolume st raw []
  let r2 := stepProps r1.1 raw r1.2
  let r3 := stepItemType r2.1 raw r2.2
  let st := r3.1
  let artworkType := if st.mediaType = .tvshow then c.cfg.artwork_type_tvshows
                     else c.cfg.artwork_type
  let currentArtwork := mediaArtworkOf c st
  let isStartingMedia := st.attrState = MS.on ∧
    (getState st.players st.properties = MS.playing ∨
     getState st.players st.properties = MS.buffering ∨
     getState st.players st.properties = MS.paused)
  match artworkSection c st raw r3.2 artworkType with
  | .error stE => { st := stE, payload := [], aborted := true }
  | .ok (st, u) =>
    let r4 := stepTitleArtistAlbum c st raw u
    let st := r4.1
    let u := r4.2.1
    let changedMedia := r4.2.2
    let artResets : List Payload :=
      if isStartingMedia ∧ (mediaArtworkOf c st).length > 0 ∧
          currentArtwork = mediaArtworkOf c st then
        [[(AttrKey.mediaImageUrl, AttrValue.vStr (mediaArtworkOf c st))]]
      else []
    let cmp := currentMediaPositionAt (getState st.players st.properties)
      (st.mediaPosition.getD 0) st.mediaPositionUpdatedAt st.mediaDuration raw.elapsedSeconds
    let r5 := stepChapters c st raw u changedMedia cmp
    let r6 := stepPausedSource r5.1 r5.2.1 r5.2.2 cmp
    let r7 := stepAudioSub c r6.1 raw r6.2
    let st := r7.1
    let u := r7.2
    let u :=
      if st.attrState ≠ getState st.players st.properties then
        dinsert u .state (.vState (getState st.players st.properties))
      else u
    let deferredReq := changedMedia ∧ (mediaArtworkOf c st).length = 0
    { st := st, payload := u, artworkResets := artResets, deferredRequested := deferredReq }

/-- The no-active-players branch of _update_states (lines 1152-1185): reset
the snapshot and build the full idle payload. -/
def idleBranch (st : DevState) : DevState × List (AttrKey × AttrValue) :=
  let st := resetState st (some [])
  let st := { st with mediaPosition := some 0, mediaDuration := 0, mediaTitle := some "",
                      mediaAlbum := some "", mediaArtist := some "" }
  let u : List (AttrKey × AttrValue) := []
  let u := dinsert u .mediaPosition (.vInt 0)
  let u := dinsert u .mediaDuration (.vInt 0)
  let u := dinsert u .mediaTitle (.vStr "")
  let u := dinsert u .mediaAlbum (.vStr "")
  let u := dinsert u .mediaArtist (.vStr "")
  let u := dinsert u .source (.vStr "")
  let u := dinsert u .sourceList (.vList [])
  let u := dinsert u .soundModeList (.vList [])
  let u := dinsert u .sensorAudioStream (.vStr "")
  let u := dinsert u .sensorSubtitleStream (.vStr "")
  let u := dinsert u .sensorChapter (.vStr "")
  let u := dinsert u .sensorVideoInfo (.vStr "")
  let u := dinsert u .sensorAudioInfo (.vStr "")
  let u := dinsert u .sensorVolume (.vInt st.volume)
  let u := dinsert u .sensorVolumeMuted (.vBool st.isVolumeMuted)
  let u := dinsert u .selectSubtitleStream (.vSel { currentOption := some "", options := some [] })
  let u := dinsert u .selectAudioStream (.vSel { currentOption := some "", options := some [] })
  let u := dinsert u .selectChapter (.vSel { currentOption := some "", options := some [] })
  (st, u)

/-- Result of one synchronization pass. -/
structure UpdResult where
  st : DevState
  finalUpdate : Option (List (AttrKey × AttrValue)) := none
  artworkResets : List (List (AttrKey × AttrValue)) := []
  aborted : Bool := false
  deferredRequested : Bool := false
deriving Repr, DecidableEq

/-- The tail of _update_states shared by the idle and active branches (lines
1187-1223): record the pass timestamp, append the state field when the derived
state changed, emit the payload only when it is non-empty, and release the
update lock. -/
def commonTail (st : DevState) (raw : RawData) (u : List (AttrKey × AttrValue))
    (artResets : List (List (AttrKey × AttrValue))) (deferredReq : Bool) : UpdResult :=
  let st := { st with positionTimestamp := some raw.nowTime }
  let su :=
    if st.attrState ≠ getState st.players st.properties then
      ({ st with attrState := getState st.players st.properties },
       dinsert u .state (.vState (getState st.players st.properties)))
    else (st, u)
  let st := su.1
  let u := su.2
  let st := { st with updateStateRetry := 0, updateLockHeld := false }
  { st := st, finalUpdate := if u = [] then none else some u,
    artworkResets := artResets, deferredRequested := deferredReq }

/-- KodiDevice._update_states: one synchronization pass, oracle-driven.  The
TimeoutError retry path and the deferred sleep are scheduling concerns outside
a single pass and are not modelled; an unknown exception inside the active
branch yields an aborted result with no emission, mirroring the broad except
clause that only logs and releases the lock. -/
def updateStates (c : Ctx) (st : DevState) (raw : RawData) : UpdResult :=
  if ¬ st.wsConnectedFlag then
    { st := resetState st none, finalUpdate := none }
  else if st.updateLockHeld ∧ ¬ (raw.nowTime - st.updateLockTime > 10) then
    { st := st, finalUpdate := none }
  else
    let st := { st with updateLockHeld := true, updateLockTime := raw.nowTime }
    let st := { st with players := raw.players }
    match raw.players with
    | none =>
        let currentState := getState st.players st.properties
        let st := resetState st none
        let emitOff := currentState ≠ getState st.players st.properties
        { st := { st with updateLockHeld := false },
          finalUpdate :=
            if emitOff then some [(AttrKey.state, AttrValue.vState (getState st.players st.properties))]
            else none }
    | some [] =>
        let r := idleBranch st
        commonTail r.1 raw r.2 [] false
    | some (_ :: _) =>
        let r := activeBranch c st raw
        if r.aborted then
          { st := { r.st with updateLockHeld := false }, finalUpdate := none,
            artworkResets := r.artworkResets, aborted := true }
        else
          commonTail r.st raw r.payload r.artworkResets r.deferredRequested

/-- A live session: connected transport, watchdog and periodic refresh task
running. -/
def liveSession : ConnState :=
  { hasConnection := true, wsConnected := true, websocketTask := true,
    updatePositionTask := true }

/-- A session with a connect in flight: the connect lock is held and a first
socket has been opened, but the websocket handshake has not completed yet. -/
def inFlightSession : ConnState :=
  { connectLockHeld := true, hasConnection := true, wsConnected := false,
    socketsOpened := 1, wsAttempts := 1 }

/-- Three raw audio streams, two with the colliding name English and one with
the unique name French. -/
def c8Streams : List RawStream :=
  [{ name := "English", index := 0 }, { name := "English", index := 1 },
   { name := "French", index := 2 }]

/-- Two raw subtitle streams with the colliding name English. -/
def c8SubStreams : List RawStream :=
  [{ name := "English", index := 0 }, { name := "English", index := 1 }]

/-- Language tables for the synchronization scenarios: the disabled-subtitles
code and the en_US locale. -/
def c1Lt : LangTables :=
  { langs := [("dis", [("en", "Disabled")])], langKeys := [("en_US", "en")] }

/-- Context of the synchronization scenarios: default configuration (no
stream names shown, no artwork download, language-name stream sensors). -/
def c1Ctx : Ctx := { lt := c1Lt }

/-- Player properties of the scenario: position 1:05, duration 2:00, playing
speed 1, no streams. -/
def c1Props : RawProps :=
  { time := some { minutes := 1, seconds := 5 }, totaltime := some { minutes := 2 }, speed := 1 }

/-- Playing item of the scenario: the movie Alpha without artwork. -/
def c1Item : RawItem := { title := some "Alpha", typ := some "movie" }

/-- First raw snapshot of the scenario: one active player, volume 20. -/
def c1Raw1 : RawData :=
  { players := some [0], appVolume := 20, appMuted := false,
    appLanguageRes := some "en_US", props := c1Props, item := c1Item,
    nowTimestamp := 100, nowTime := 50 }

/-- The cached snapshot after the first pass of the scenario (proved equal to
the pass-1 result below). -/
def c1St1 : DevState :=
  { wsConnectedFlag := true
    players := some [0]
    properties := some c1Props
    item := some c1Item
    appProperties := some (20, false)
    volume := 20
    isVolumeMuted := false
    mediaPosition := some 65
    mediaDuration := 120
    mediaPositionUpdatedAt := some 100
    mediaType := MT.movie
    mediaTitle := some "Alpha"
    mediaImageUrl := ""
    mediaImageData := ""
    mediaArtist := none
    mediaAlbum := none
    thumbnail := none
    attrState := MS.playing
    temporaryTitle := none
    chapters := none
    source := none
    audioStream := ""
    subtitleStream := "Disabled"
    appLanguage := some "en_US"
    updateStateRetry := 0
    positionTimestamp := some 50
    updateLockHeld := false
    updateLockTime := 50 }

/-- Second raw snapshot of the scenario: identical to the first except for
the application volume and the clock. -/
def c1Raw2 (v : Int) : RawData :=
  { c1Raw1 with appVolume := v, nowTime := 70, nowTimestamp := 120 }

/-- A raw snapshot identical to the first except for a longer duration
(3:00) and the clock; the playback position is unchanged. -/
def c1RawD : RawData :=
  { c1Raw1 with
    props := { c1Props with totaltime := some { minutes := 3 } }
    nowTime := 70
    nowTimestamp := 120 }

/-- C10: for every non-negative media position sent to seek() with an active
player, the hours, minutes and seconds of the Player.Seek call decompose the
position exactly with minutes and seconds below 60 and zero milliseconds; with
no active player or no position, no call is sent. -/
theorem C10_seek :
    (∀ (p : Nat) (ps : List Nat) (pos : Int), 0 ≤ pos →
      ∃ h m s, seekCall (some (p :: ps)) (some pos) = some (p, h, m, s, 0) ∧
        h * 3600 + m * 60 + s = pos ∧ 0 ≤ m ∧ m < 60 ∧ 0 ≤ s ∧ s < 60) ∧
    (∀ pos, seekCall none pos = none) ∧
    (∀ pos, seekCall (some []) pos = none) ∧
    (∀ pl, seekCall pl none = none) := by
  refine ⟨?_, ?_, ?_, ?_⟩
  · intro p ps pos hpos
    refine ⟨(pos.fdiv 60).fdiv 60, (pos.fdiv 60).fmod 60, pos.fmod 60, rfl, ?_⟩
    have h60 : (0 : Int) ≤ 60 := by norm_num
    have h1 := Int.fdiv_eq_ediv pos h60
    have h2 := Int.fmod_eq_emod pos h60
    have h3 := Int.fdiv_eq_ediv (pos.fdiv 60) h60
    have h4 := Int.fmod_eq_emod (pos.fdiv 60) h60
    rw [h1] at h3 h4
    rw [h1, h2, h3, h4]
    omega
  · intro pos; rfl
  · intro pos; cases pos <;> rfl
  · intro pl; rcases pl with _ | (_ | ⟨p, ps⟩) <;> rfl

/-- C10 witness: seeking to 3725 seconds with player 0 active. -/
theorem C10_seek_witness :
    ∃ h m s, seekCall (some [0]) (some 3725) = some (0, h, m, s, 0) ∧
      h * 3600 + m * 60 + s = 3725 ∧ 0 ≤ m ∧ m < 60 ∧ 0 ≤ s ∧ s < 60 :=
  C10_seek.1 0 [] 3725 (by norm_num)

/-- C7 counterexample: with the configured type "poster" absent from the art
map, a populated fan-art field and a populated thumbnail, the code resolves to
the thumbnail while the specified fallback chain resolves to the fan-art
value; the claimed chain therefore does not match the code. -/
theorem C7_counterexample :
    selectArtwork [] (some "F") (some "T") "poster" = some "T" ∧
    specSelectArtwork [] (some "F") (some "T") "poster" = some "F" ∧
    selectArtwork [] (some "F") (some "T") "poster" ≠
      specSelectArtwork [] (some "F") (some "T") "poster" := by
  decide

/-- C7 amended: a non-empty entry for the configured type wins; the fan-art
field is consulted only when the configured type is "fanart" and the art map
has no entry for it; any other missing preferred type, and an empty-string
preferred entry, fall directly to the generic thumbnail; empty strings count
as absent in the final value, and when everything is absent the resolved
artwork reference is none and the image URL is empty. -/
theorem C7_artwork_amended :
    (∀ art f th t v, lookupStr art t = some v → v ≠ "" →
      selectArtwork art f th t = some v) ∧
    (∀ art f th fv, lookupStr art "fanart" = none → f = some fv → fv ≠ "" →
      selectArtwork art f th "fanart" = some fv) ∧
    (∀ art f th t, lookupStr art t = none → t ≠ "fanart" →
      selectArtwork art f th t = (if th = some "" then none else th)) ∧
    (∀ art f th t, lookupStr art t = some "" →
      selectArtwork art f th t = (if th = some "" then none else th)) ∧
    (∀ art f t, (lookupStr art t = none ∨ lookupStr art t = some "") →
      (f = none ∨ f = some "") → selectArtwork art f none t = none) ∧
    (∀ base, (thumbnailUrl base none).getD "" = "") := by
  refine ⟨?_, ?_, ?_, ?_, ?_, ?_⟩
  · intro art f th t v hl hv
    simp [selectArtwork, hl, hv]
  · intro art f th fv hl hf hfv
    subst hf
    simp [selectArtwork, hl, hfv]
  · intro art f th t hl ht
    simp [selectArtwork, hl, ht]
  · intro art f th t hl
    simp [selectArtwork, hl]
  · intro art f t hl hf
    rcases hl with hl | hl <;> rcases hf with hf | hf <;> subst hf <;>
      simp [selectArtwork, hl]
  · intro base; rfl

/-- C7 witness: the amended fallback applied at concrete inputs. -/
theorem C7_artwork_amended_witness :
    selectArtwork [("fanart", "image://f/")] (some "F") (some "T") "fanart" =
      some "image://f/" ∧
    selectArtwork [] (some "F") (some "T") "fanart" = some "F" ∧
    selectArtwork [] (some "F") (some "T") "poster" =
      (if (some "T" : Option String) = some "" then none else some "T") ∧
    selectArtwork [] none none "poster" = none :=
  ⟨C7_artwork_amended.1 [("fanart", "image://f/")] (some "F") (some "T") "fanart"
      "image://f/" rfl (by decide),
   C7_artwork_amended.2.1 [] (some "F") (some "T") "F" rfl rfl (by decide),
   C7_artwork_amended.2.2.1 [] (some "F") (some "T") "poster" rfl (by decide),
   C7_artwork_amended.2.2.2.2.1 [] none "poster" (Or.inl rfl) (Or.inl rfl)⟩

/-- Field behaviour of the shared finally block of connect(). -/
theorem connectFinally_fields (st : ConnState) :
    (connectFinally st).available = true ∧
    (connectFinally st).emitted = st.emitted ++ [EventKind.connected] ∧
    (connectFinally st).wsAttempts = st.wsAttempts ∧
    (connectFinally st).socketsOpened = st.socketsOpened ∧
    (connectFinally st).connectError = st.connectError ∧
    (connectFinally st).connectionStatus = st.connectionStatus ∧
    (connectFinally st).reconnectRetry = st.reconnectRetry ∧
    (connectFinally st).watchdogReconnects = st.watchdogReconnects ∧
    (connectFinally st).hasConnection = st.hasConnection ∧
    (connectFinally st).wsConnected = st.wsConnected ∧
    (connectFinally st).connectLockHeld = false := by
  unfold connectFinally
  split_ifs <;> dsimp only <;> split_ifs <;>
    exact ⟨rfl, rfl, rfl, rfl, rfl, rfl, rfl, rfl, rfl, rfl, by simp_all⟩

/-- A connect() that finds the lock free and the transport not connected
always tears down any stale transport and opens exactly one new socket, with
exactly one websocket connect attempt, whatever the handshake outcome. -/
theorem connect_attempts (cfg : Bool) (st : ConnState) (o : ConnectOutcome) (pOk : Bool)
    (hlock : st.connectLockHeld = false)
    (hnc : ¬ (st.hasConnection = true ∧ st.wsConnected = true)) :
    (connect cfg st o pOk).1.socketsOpened = st.socketsOpened + 1 ∧
    (connect cfg st o pOk).1.wsAttempts = st.wsAttempts + 1 := by
  constructor <;>
    cases o <;>
      simp only [connect, pingStep, connectFinally,
        apply_ite (fun p : ConnState × Bool => p.1),
        apply_ite (fun s : ConnState => s.socketsOpened),
        apply_ite (fun s : ConnState => s.wsAttempts)] <;>
      simp [ite_self, hlock, hnc]

/-- A connect() that observes the lock held runs only the finally block. -/
theorem connect_lock_held_eq (cfg : Bool) (st : ConnState) (o : ConnectOutcome) (pOk : Bool)
    (h : st.connectLockHeld = true) :
    connect cfg st o pOk = (connectFinally st, true) := by
  unfold connect
  rw [if_pos h]

/-- Shape of a connect() run that fails with a connection error: the finally
block applied to an intermediate state carrying the failure markers. -/
theorem connect_connError_shape (cfg : Bool) (st : ConnState) (pOk : Bool)
    (hlock : st.connectLockHeld = false)
    (hnc : ¬ (st.hasConnection = true ∧ st.wsConnected = true)) :
    ∃ mid : ConnState,
      connect cfg st ConnectOutcome.connError pOk = (connectFinally mid, false) ∧
      mid.connectError = true ∧ mid.connectionStatus = FutureState.pending ∧
      mid.reconnectRetry = st.reconnectRetry ∧ mid.emitted = st.emitted := by
  unfold connect
  rw [if_neg (by simp [hlock])]
  try dsimp only
  rw [if_neg (by simpa using hnc)]
  try dsimp only
  split_ifs <;>
    refine ⟨_, rfl, ?_, ?_, ?_, ?_⟩ <;>
    first
      | rfl
      | (cases hcs : st.connectionStatus <;> simp_all)

/-- C2 counterexample: with a connect in flight (lock held, handshake
pending), a second connect() returns success immediately but its finally
block releases the in-flight connect's lock, so a third connect() passes the
single-flight guard and opens a second socket while the first connect is
still unfinished - refuting the claim that at most one connect sequence is
ever in flight over every call sequence. -/
theorem C2_counterexample :
    (connect false inFlightSession ConnectOutcome.success true).2 = true ∧
    (connect false inFlightSession ConnectOutcome.success true).1.connectLockHeld = false ∧
    (connect false (connect false inFlightSession ConnectOutcome.success true).1
      ConnectOutcome.success true).1.socketsOpened = 2 ∧
    (connect false (connect false inFlightSession ConnectOutcome.success true).1
      ConnectOutcome.success true).1.wsAttempts = 2 :=
  ⟨rfl, rfl, rfl, rfl⟩

/-- C2 amended: a connect() call made while the connect lock is already held
returns success immediately without itself opening a socket or attempting a
websocket connection; single-flight is however not preserved across a call
sequence: the early return's shared finally block releases the in-flight
connect's lock, after which a subsequent connect() (the handshake still
pending) opens a second socket and starts a second websocket attempt. -/
theorem C2_connect_single_flight_amended (cfg cfg2 : Bool) (st : ConnState)
    (o o2 : ConnectOutcome) (pOk p2 : Bool)
    (h : st.connectLockHeld = true) (hws : st.wsConnected = false) :
    (connect cfg st o pOk).2 = true ∧
    (connect cfg st o pOk).1.wsAttempts = st.wsAttempts ∧
    (connect cfg st o pOk).1.socketsOpened = st.socketsOpened ∧
    (connect cfg st o pOk).1.connectLockHeld = false ∧
    (connect cfg2 (connect cfg st o pOk).1 o2 p2).1.socketsOpened =
      st.socketsOpened + 1 ∧
    (connect cfg2 (connect cfg st o pOk).1 o2 p2).1.wsAttempts = st.wsAttempts + 1 := by
  rw [connect_lock_held_eq cfg st o pOk h]
  have hf := connectFinally_fields st
  have hnc2 : ¬ ((connectFinally st).hasConnection = true ∧
      (connectFinally st).wsConnected = true) := by
    rw [hf.2.2.2.2.2.2.2.2.2.1]
    simp [hws]
  have ha := connect_attempts cfg2 (connectFinally st) o2 p2
    hf.2.2.2.2.2.2.2.2.2.2 hnc2
  refine ⟨rfl, hf.2.2.1, hf.2.2.2.1, hf.2.2.2.2.2.2.2.2.2.2, ?_, ?_⟩
  · rw [ha.1, hf.2.2.2.1]
  · rw [ha.2, hf.2.2.1]

/-- C2 witness: the amended single-flight behaviour at the concrete in-flight
session. -/
theorem C2_connect_single_flight_amended_witness :
    (connect false inFlightSession ConnectOutcome.success true).2 = true ∧
    (connect false inFlightSession ConnectOutcome.success true).1.socketsOpened =
      inFlightSession.socketsOpened ∧
    (connect false (connect false inFlightSession ConnectOutcome.success true).1
      ConnectOutcome.success true).1.socketsOpened = inFlightSession.socketsOpened + 1 :=
  ⟨(C2_connect_single_flight_amended false false inFlightSession
      ConnectOutcome.success ConnectOutcome.success true true rfl rfl).1,
   (C2_connect_single_flight_amended false false inFlightSession
      ConnectOutcome.success ConnectOutcome.success true true rfl rfl).2.2.1,
   (C2_connect_single_flight_amended false false inFlightSession
      ConnectOutcome.success ConnectOutcome.success true true rfl rfl).2.2.2.2.1⟩

/-- C5 counterexample: a connect() that fails with a connection error still
emits a CONNECTED event (and marks the session available) from the shared
finally block, refuting the claim that nothing is emitted for the failed
attempt. -/
theorem C5_counterexample :
    (connect false {} ConnectOutcome.connError true).1.emitted = [EventKind.connected] ∧
    (connect false {} ConnectOutcome.connError true).1.available = true ∧
    (connect false {} ConnectOutcome.connError true).2 = false :=
  ⟨rfl, rfl, rfl⟩

/-- C5 amended: a connect() failing with a connection error marks the connect
error, leaves an unresolved connection-ready future behind (creating it when
absent or already resolved), leaves the reconnect counter untouched and
returns False; the shared finally block however still marks the session
available and emits one CONNECTED event even for the failed attempt. -/
theorem C5_connect_error_amended (cfg : Bool) (st : ConnState) (pOk : Bool)
    (hlock : st.connectLockHeld = false)
    (hnc : ¬ (st.hasConnection = true ∧ st.wsConnected = true)) :
    (connect cfg st ConnectOutcome.connError pOk).2 = false ∧
    (connect cfg st ConnectOutcome.connError pOk).1.connectError = true ∧
    (connect cfg st ConnectOutcome.connError pOk).1.connectionStatus = FutureState.pending ∧
    (connect cfg st ConnectOutcome.connError pOk).1.reconnectRetry = st.reconnectRetry ∧
    (connect cfg st ConnectOutcome.connError pOk).1.emitted =
      st.emitted ++ [EventKind.connected] ∧
    (connect cfg st ConnectOutcome.connError pOk).1.available = true := by
  obtain ⟨mid, heq, hce, hcs, hrr, hem⟩ := connect_connError_shape cfg st pOk hlock hnc
  rw [heq]
  have hf := connectFinally_fields mid
  refine ⟨rfl, ?_, ?_, ?_, ?_, hf.1⟩
  · rw [hf.2.2.2.2.1, hce]
  · rw [hf.2.2.2.2.2.1, hcs]
  · rw [hf.2.2.2.2.2.2.1, hrr]
  · rw [hf.2.1, hem]

/-- C5 witness: the amended failure contract at a concrete fresh session. -/
theorem C5_connect_error_amended_witness :
    (connect false {} ConnectOutcome.connError true).2 = false ∧
    (connect false {} ConnectOutcome.connError true).1.connectError = true ∧
    (connect false {} ConnectOutcome.connError true).1.connectionStatus =
      FutureState.pending ∧
    (connect false {} ConnectOutcome.connError true).1.reconnectRetry =
      ({} : ConnState).reconnectRetry ∧
    (connect false {} ConnectOutcome.connError true).1.emitted =
      ({} : ConnState).emitted ++ [EventKind.connected] ∧
    (connect false {} ConnectOutcome.connError true).1.available = true :=
  C5_connect_error_amended false {} true rfl (by decide)

/-- C9 counterexample: disconnect() does not cancel the periodic
position-refresh task; after a successful disconnect the task handle is still
set, refuting the claim that it is cancelled. -/
theorem C9_counterexample :
    ((disconnect liveSession CloseOutcome.closeOk).1).updatePositionTask = true := by
  rfl

/-- C9 amended: every disconnect() clears the watchdog handle, marks the
session unavailable and resets the reconnect counter, but leaves the periodic
position-refresh task untouched; a successful close drops the transport and
sets the state to off; on an already-disconnected session the call closes
nothing, raises nothing and still ends in the off / unavailable state, and a
second disconnect after a successful one is an exact no-op. -/
theorem C9_disconnect_amended (st : ConnState) (o : CloseOutcome) :
    ((disconnect st o).1.websocketTask = false ∧
     (disconnect st o).1.available = false ∧
     (disconnect st o).1.reconnectRetry = 0 ∧
     (disconnect st o).1.updatePositionTask = st.updatePositionTask) ∧
    (o = CloseOutcome.closeOk →
      (disconnect st o).1.hasConnection = false ∧ (disconnect st o).1.attrState = MS.off) ∧
    (st.hasConnection = false →
      (disconnect st o).2 = false ∧ (disconnect st o).1.closeCalls = st.closeCalls ∧
      (disconnect st o).1.attrState = MS.off) ∧
    (∀ o2, disconnect ((disconnect st CloseOutcome.closeOk).1) o2 =
      ((disconnect st CloseOutcome.closeOk).1, false)) := by
  refine ⟨?_, ?_, ?_, ?_⟩
  · cases o <;> simp [disconnect, disconnectFinally] <;> split_ifs <;> simp_all
  · rintro rfl
    simp only [disconnect, disconnectFinally]
    split_ifs <;> simp_all
  · intro h
    simp [disconnect, disconnectFinally, h]
  · intro o2
    cases o2 <;> simp [disconnect, disconnectFinally] <;> split_ifs <;> simp_all

/-- C9 witness: the amended disconnect contract at a concrete live session. -/
theorem C9_disconnect_amended_witness :
    (disconnect liveSession CloseOutcome.closeOk).1.hasConnection = false ∧
    (disconnect liveSession CloseOutcome.closeOk).1.attrState = MS.off :=
  (C9_disconnect_amended liveSession CloseOutcome.closeOk).2.1 rfl

/-- C4 counterexample: with a timeout of one half second, the non-bufferized
wait uses the bound max(timeout - 1, 1) = 1, which exceeds the given timeout,
refuting the claim that the call waits at most the given timeout. -/
theorem C4_counterexample :
    (retryCallCommand (1 / 2) false 0 CallOutcome.ok {}).waitBound = some 1 ∧
    ¬ ((1 : ℚ) ≤ 1 / 2) := by
  constructor
  · simp [retryCallCommand]
    norm_num [max_eq_right]
  · norm_num

/-- C4 amended: a command issued while disconnected resets the reconnect
counter, ensures a connection-ready future exists and schedules a reconnect
task exactly when no connect holds the lock; with bufferize the command is
recorded under its submission timestamp and returns success immediately with
no wait and no invocation; without bufferize the wait on the connection-ready
future is bounded by max(timeout - 1, 1) seconds — not by the given timeout
itself — and the command is then invoked exactly once whether or not the wait
succeeded. -/
theorem C4_retry_call_amended (timeout : ℚ) (bufferize : Bool) (now : ℚ)
    (o : CallOutcome) (st : DispatchState) :
    ((retryCallCommand timeout bufferize now o st).st.reconnectRetry = 0) ∧
    ((retryCallCommand timeout bufferize now o st).st.connectionStatus ≠ FutureState.absent) ∧
    (st.connectLockHeld = false →
      (retryCallCommand timeout bufferize now o st).st.connectTasks = st.connectTasks + 1) ∧
    (st.connectLockHeld = true →
      (retryCallCommand timeout bufferize now o st).st.connectTasks = st.connectTasks) ∧
    (bufferize = true →
      (retryCallCommand timeout bufferize now o st).st.buffered = st.buffered ++ [now] ∧
      (retryCallCommand timeout bufferize now o st).result = RunResult.returned UStatus.ok ∧
      (retryCallCommand timeout bufferize now o st).funcCalls = 0 ∧
      (retryCallCommand timeout bufferize now o st).waitBound = none) ∧
    (bufferize = false →
      (retryCallCommand timeout bufferize now o st).waitBound =
        some (max (timeout - 1) 1) ∧
      (retryCallCommand timeout bufferize now o st).funcCalls = 1) := by
  obtain ⟨rr, cs, lk, bf, ct⟩ := st
  cases bufferize <;> cases o <;> cases lk <;> cases cs <;>
    simp [retryCallCommand]

/-- C4 witness: the amended dispatch contract at concrete inputs. -/
theorem C4_retry_call_amended_witness :
    (retryCallCommand 5 true 7 CallOutcome.ok {}).st.buffered =
      ({} : DispatchState).buffered ++ [7] ∧
    (retryCallCommand 5 true 7 CallOutcome.ok {}).result =
      RunResult.returned UStatus.ok ∧
    (retryCallCommand 5 true 7 CallOutcome.ok {}).funcCalls = 0 ∧
    (retryCallCommand 5 true 7 CallOutcome.ok {}).waitBound = none :=
  (C4_retry_call_amended 5 true 7 CallOutcome.ok {}).2.2.2.2.1 rfl

/-- C3: a wrapped command whose invocation fails with a transport-category
error is retried exactly once through the reconnect-and-resend path (two
invocations in total for a non-bufferized command), and when the retry also
fails with a transport-category error the wrapper returns the generic
BAD_REQUEST status to the caller with no exception escaping. -/
theorem C3_retry_once (timeout : ℚ) (connected : Bool) (second : CallOutcome)
    (n1 n2 : ℚ) (st : DispatchState) :
    (retryWrapper timeout false connected CallOutcome.transportErr second n1 n2 st).funcCalls
      = 2 ∧
    1 ≤ (retryWrapper timeout false connected CallOutcome.transportErr second n1 n2
      st).retryPathRuns ∧
    (second = CallOutcome.transportErr →
      (retryWrapper timeout false connected CallOutcome.transportErr second n1 n2 st).outcome
        = RunResult.returned UStatus.badRequest) := by
  cases connected <;> cases second <;>
    simp [retryWrapper, retryCallCommand]

/-- C3 witness: a command failing twice with transport errors while connected
is invoked twice and returns the generic failure status without raising. -/
theorem C3_retry_once_witness :
    (retryWrapper 5 false true CallOutcome.transportErr CallOutcome.transportErr 0 0
      {}).funcCalls = 2 ∧
    (retryWrapper 5 false true CallOutcome.transportErr CallOutcome.transportErr 0 0
      {}).outcome = RunResult.returned UStatus.badRequest :=
  ⟨(C3_retry_once 5 true CallOutcome.transportErr 0 0 {}).1,
   (C3_retry_once 5 true CallOutcome.transportErr 0 0 {}).2.2 rfl⟩

/-- Connect never modifies the reconnect counter or the watchdog-reconnect
ghost counter. -/
theorem connect_preserves (cfg : Bool) (st : ConnState) (o : ConnectOutcome) (pOk : Bool) :
    (connect cfg st o pOk).1.reconnectRetry = st.reconnectRetry ∧
    (connect cfg st o pOk).1.watchdogReconnects = st.watchdogReconnects := by
  constructor <;>
    cases o <;>
      simp only [connect, pingStep, connectFinally,
        apply_ite (fun p : ConnState × Bool => p.1),
        apply_ite (fun s : ConnState => s.reconnectRetry),
        apply_ite (fun s : ConnState => s.watchdogReconnects)] <;>
      simp [ite_self]

/-- A watchdog tick at or over the retry cap reports false without touching
the state. -/
theorem watchdog_tick_stops (cfg : Bool) (st : ConnState) (o : WatchdogOracle)
    (hws : st.wsConnected = false) (hcap : CONNECTION_RETRIES ≤ st.reconnectRetry) :
    reconnectIfDisconnected cfg st o = (st, false) := by
  unfold reconnectIfDisconnected
  rw [if_pos ⟨by simp [hws], hcap⟩]

/-- C6: once the reconnect counter has reached the maximum retry count while
the transport is disconnected, a watchdog tick reports false and the loop
clears its own handle and stops, issuing no further reconnect attempts
regardless of the remaining fuel; below the cap a disconnected tick increments
the counter by exactly one, issues exactly one reconnect attempt and keeps
the loop alive. -/
theorem C6_watchdog_cap :
    (∀ (cfg : Bool) (st : ConnState) (o : WatchdogOracle),
      st.wsConnected = false → CONNECTION_RETRIES ≤ st.reconnectRetry →
      reconnectIfDisconnected cfg st o = (st, false)) ∧
    (∀ (cfg : Bool) (oracle : Nat → WatchdogOracle) (st : ConnState) (n : Nat),
      st.wsConnected = false → CONNECTION_RETRIES ≤ st.reconnectRetry →
      watchdogRun cfg oracle (n + 1) st = { st with websocketTask := false }) ∧
    (∀ (cfg : Bool) (st : ConnState) (o : WatchdogOracle),
      st.wsConnected = false → st.reconnectRetry < CONNECTION_RETRIES →
      (reconnectIfDisconnected cfg st o).1.reconnectRetry = st.reconnectRetry + 1 ∧
      (reconnectIfDisconnected cfg st o).1.watchdogReconnects = st.watchdogReconnects + 1 ∧
      (reconnectIfDisconnected cfg st o).2 = true) := by
  refine ⟨fun cfg st o hws hcap => watchdog_tick_stops cfg st o hws hcap, ?_, ?_⟩
  · intro cfg oracle st n hws hcap
    rw [watchdogRun, watchdog_tick_stops cfg st (oracle n) hws hcap]
    simp
  · intro cfg st o hws hlt
    unfold reconnectIfDisconnected
    rw [if_neg (by omega)]
    rw [if_pos (by simp [hws])]
    try dsimp only
    split_ifs <;>
      refine ⟨?_, ?_, rfl⟩ <;>
      simp [connect_preserves]

/-- C6 witness: the retry cap and the below-cap increment at concrete
states. -/
theorem C6_watchdog_cap_witness :
    reconnectIfDisconnected false { reconnectRetry := 30 } {} =
      (({ reconnectRetry := 30 } : ConnState), false) ∧
    watchdogRun false (fun _ => {}) 5 { reconnectRetry := 30 } =
      { ({ reconnectRetry := 30 } : ConnState) with websocketTask := false } ∧
    (reconnectIfDisconnected false {} {}).1.reconnectRetry =
      ({} : ConnState).reconnectRetry + 1 :=
  ⟨C6_watchdog_cap.1 false { reconnectRetry := 30 } {} rfl
      (by norm_num [CONNECTION_RETRIES]),
   C6_watchdog_cap.2.1 false (fun _ => {}) { reconnectRetry := 30 } 4 rfl
      (by norm_num [CONNECTION_RETRIES]),
   (C6_watchdog_cap.2.2 false {} {} rfl (by norm_num [CONNECTION_RETRIES])).1⟩

/-- The track accumulation loop returns the accumulator followed by one track
per stream. -/
theorem trackLoop_fst (mk : RawStream → Track) (cfg : StreamCfg) :
    ∀ (ss : List RawStream) (acc : List Track) (dup : Bool),
      (trackLoop mk cfg ss acc dup).1 = acc ++ ss.map mk := by
  intro ss
  induction ss with
  | nil => intro acc dup; simp [trackLoop]
  | cons s rest ih => intro acc dup; simp [trackLoop, ih]

/-- Once the duplicate flag is set it stays set. -/
theorem trackLoop_snd_true (mk : RawStream → Track) (cfg : StreamCfg) :
    ∀ (ss : List RawStream) (acc : List Track),
      (trackLoop mk cfg ss acc true).2 = true := by
  intro ss
  induction ss with
  | nil => intro acc; rfl
  | cons s rest ih => intro acc; simp [trackLoop, ih]

/-- The duplicate flag computed by the loop is exactly the presence of a
repeated computed display name, provided the initial accumulator is
collision-free. -/
theorem trackLoop_snd (mk : RawStream → Track) (cfg : StreamCfg) :
    ∀ (ss : List RawStream) (acc : List Track) (dup : Bool),
      ((acc.map (fun x => x.trackName cfg)).Nodup) →
      (trackLoop mk cfg ss acc dup).2 =
        (dup || !decide (((acc ++ ss.map mk).map (fun x => x.trackName cfg)).Nodup)) := by
  intro ss
  induction ss with
  | nil =>
      intro acc dup h
      simp [trackLoop, h]
  | cons s rest ih =>
      intro acc dup h
      by_cases hc : (mk s).trackName cfg ∈ acc.map (fun x => x.trackName cfg)
      · have hnotnodup :
            ¬ ((acc ++ (s :: rest).map mk).map (fun x => x.trackName cfg)).Nodup := by
          intro hnd
          rw [List.map_append, List.nodup_append] at hnd
          exact hnd.2.2 hc (by simp)
        simp [trackLoop, hc, trackLoop_snd_true]
        right
        simpa using hnotnodup
      · have hnd2 : (((acc ++ [mk s]).map (fun x => x.trackName cfg))).Nodup := by
          rw [List.map_append, List.nodup_append]
          refine ⟨h, by simp, ?_⟩
          intro a ha hb
          simp at hb
          subst hb
          exact hc ha
        have hrec := ih (acc ++ [mk s]) dup hnd2
        have hl : ((acc ++ [mk s]) ++ rest.map mk) = acc ++ (s :: rest).map mk := by simp
        rw [hl] at hrec
        simp [trackLoop, hc, hrec]

/-- C8 amended: when no two computed display names collide, audio_tracks
returns the per-stream tracks untouched; when any two collide, every track --
including those whose names collide with no other -- receives the
stream-index tag on its name.  subtitle_tracks behaves the same way with the
synthetic disabled entry in front, collisions detected on names computed
under the audio stream preference (as in the source), and the disabled entry
tagged along with everything else. -/
theorem C8_track_collision_amended :
    (∀ (t : LangTables) (al : Option String) (cfg : StreamCfg) (ss : List RawStream),
      ((ss.map (mkAudioTrack t al)).map (fun x => x.trackName cfg)).Nodup →
      audioTracks t al cfg ss = ss.map (mkAudioTrack t al)) ∧
    (∀ (t : LangTables) (al : Option String) (cfg : StreamCfg) (ss : List RawStream),
      ¬ ((ss.map (mkAudioTrack t al)).map (fun x => x.trackName cfg)).Nodup →
      audioTracks t al cfg ss = (ss.map (mkAudioTrack t al)).map tagTrack) ∧
    (∀ (t : LangTables) (al : Option String) (audioCfg : StreamCfg) (ss : List RawStream),
      ((disabledTrack t al :: ss.map (mkSubtitleTrack t al)).map
          (fun x => x.trackName audioCfg)).Nodup →
      subtitleTracks t al audioCfg ss =
        disabledTrack t al :: ss.map (mkSubtitleTrack t al)) ∧
    (∀ (t : LangTables) (al : Option String) (audioCfg : StreamCfg) (ss : List RawStream),
      ¬ ((disabledTrack t al :: ss.map (mkSubtitleTrack t al)).map
          (fun x => x.trackName audioCfg)).Nodup →
      subtitleTracks t al audioCfg ss =
        (disabledTrack t al :: ss.map (mkSubtitleTrack t al)).map tagTrack) := by
  have he : ∀ (t : LangTables) (al : Option String) (cfg : StreamCfg) (ss : List RawStream),
      audioTracks t al cfg ss =
        (if (trackLoop (mkAudioTrack t al) cfg ss [] false).2 = true
         then ((trackLoop (mkAudioTrack t al) cfg ss [] false).1).map tagTrack
         else (trackLoop (mkAudioTrack t al) cfg ss [] false).1) := fun _ _ _ _ => rfl
  have hs : ∀ (t : LangTables) (al : Option String) (cfg : StreamCfg) (ss : List RawStream),
      subtitleTracks t al cfg ss =
        (if (trackLoop (mkSubtitleTrack t al) cfg ss [disabledTrack t al] false).2 = true
         then ((trackLoop (mkSubtitleTrack t al) cfg ss [disabledTrack t al] false).1).map
           tagTrack
         else (trackLoop (mkSubtitleTrack t al) cfg ss [disabledTrack t al] false).1) :=
    fun _ _ _ _ => rfl
  refine ⟨?_, ?_, ?_, ?_⟩
  · intro t al cfg ss h
    rw [List.map_map] at h
    rw [he, trackLoop_snd (mkAudioTrack t al) cfg ss [] false (by simp)]
    simp [h, trackLoop_fst]
  · intro t al cfg ss h
    rw [List.map_map] at h
    rw [he, trackLoop_snd (mkAudioTrack t al) cfg ss [] false (by simp)]
    simp [h, trackLoop_fst]
  · intro t al cfg ss h
    simp only [List.map_cons, List.map_map] at h
    rw [hs, trackLoop_snd (mkSubtitleTrack t al) cfg ss [disabledTrack t al] false (by simp)]
    simp [h, trackLoop_fst]
  · intro t al cfg ss h
    simp only [List.map_cons, List.map_map] at h
    rw [hs, trackLoop_snd (mkSubtitleTrack t al) cfg ss [disabledTrack t al] false (by simp)]
    simp [h, trackLoop_fst]

/-- C8 counterexample: with two colliding names and one non-colliding name,
the non-colliding track French is also tagged with its stream index, refuting
the claim that a non-colliding track is left unprefixed. -/
theorem C8_counterexample :
    ((c8Streams.map (mkAudioTrack {} none)).map (fun x => x.trackName StreamCfg.streamName)) =
      ["English", "English", "French"] ∧
    (audioTracks {} none StreamCfg.streamName c8Streams).map
        (fun x => x.trackName StreamCfg.streamName) =
      ["0:English", "1:English", "2:French"] :=
  ⟨rfl, rfl⟩


/-- C8 witness: the amended collision rule applied at concrete audio and
subtitle stream lists. -/
theorem C8_track_collision_amended_witness :
    audioTracks {} none StreamCfg.streamName [{ name := "French", index := 2 }] =
      ([({ name := "French", index := 2 } : RawStream)]).map (mkAudioTrack {} none) ∧
    audioTracks {} none StreamCfg.streamName c8Streams =
      (c8Streams.map (mkAudioTrack {} none)).map tagTrack ∧
    subtitleTracks {} none StreamCfg.streamName [{ name := "French", index := 2 }] =
      disabledTrack {} none ::
        ([({ name := "French", index := 2 } : RawStream)]).map (mkSubtitleTrack {} none) ∧
    subtitleTracks {} none StreamCfg.streamName c8SubStreams =
      (disabledTrack {} none :: c8SubStreams.map (mkSubtitleTrack {} none)).map tagTrack :=
  ⟨C8_track_collision_amended.1 {} none StreamCfg.streamName
      [{ name := "French", index := 2 }] (by decide),
   C8_track_collision_amended.2.1 {} none StreamCfg.streamName c8Streams (by decide),
   C8_track_collision_amended.2.2.1 {} none StreamCfg.streamName
      [{ name := "French", index := 2 }] (by decide),
   C8_track_collision_amended.2.2.2 {} none StreamCfg.streamName c8SubStreams (by decide)⟩

/-- The shared tail of a synchronization pass emits only non-empty
payloads. -/
theorem commonTail_some_ne (st : DevState) (raw : RawData) (u : Payload)
    (a : List Payload) (d : Bool) (v : Payload)
    (h : (commonTail st raw u a d).finalUpdate = some v) : v ≠ [] := by
  unfold commonTail at h
  try dsimp only at h
  split at h <;> simp at h <;> obtain ⟨h1, rfl⟩ := h <;> exact h1

/-- A synchronization pass never emits an update event with an empty
payload, whatever the state and the raw data. -/
theorem updateStates_payload_ne (c : Ctx) (st : DevState) (raw : RawData) (v : Payload)
    (h : (updateStates c st raw).finalUpdate = some v) : v ≠ [] := by
  unfold updateStates at h
  split at h
  · simp at h
  · split at h
    · simp at h
    · split at h
      · try dsimp only at h
        simp at h
        obtain ⟨h1, rfl⟩ := h
        simp
      · try dsimp only at h
        exact commonTail_some_ne _ _ _ _ _ v h
      · try dsimp only at h
        split at h
        · simp at h
        · exact commonTail_some_ne _ _ _ _ _ v h

/-- The first pass of the scenario produces exactly the recorded cached
snapshot. -/
theorem c1_pass1 : (updateStates c1Ctx {} c1Raw1).st = c1St1 := by rfl

/-- The second pass of the scenario, with the volume as the only difference
between the raw snapshots, emits exactly the volume field. -/
theorem c1_pass2 (v : Int) (hv : v ≠ 20) :
    (updateStates c1Ctx c1St1 (c1Raw2 v)).finalUpdate =
      some [(AttrKey.volume, AttrValue.vInt v)] := by
  have hv2 : ¬ ((20 : Int) = v) := fun h => hv h.symm
  simp [updateStates, commonTail, activeBranch, stepAppVolume, stepProps, stepItemType,
    stepTitleArtistAlbum, stepChapters, stepPausedSource, stepAudioSub, artworkSection,
    idleBranch, resetState, c1Ctx, c1St1, c1Raw1, c1Raw2, c1Props, c1Item, c1Lt,
    getState, videoInfoOf, audioInfoOf, getStreamsInfo, getStreamsName, streamsParts,
    getLanguage, getLanguageName, pyTitle, pyTitleChars, currentChapterAt,
    currentMediaPositionAt, sourceListOf, currentAudioTrackOf, currentSubtitleTrackOf,
    disabledTrack, Track.trackName, Track.languageNameOrStream, Track.streamNameOrLang,
    Track.fullName, audioTracks, subtitleTracks, trackLoop, tagTrack, mkAudioTrack,
    mkSubtitleTrack, getStreamInfo, selectArtwork, thumbnailUrl, mediaArtworkOf,
    kodiMediaType, kodiMediaTypes, lookupStr, dinsert, dget, strVal, intVal, pyOr,
    strTruthy, Hms.toSeconds, hv2]

/-- C1 counterexample: a pass whose raw snapshot differs from the cache only
in the duration emits a payload containing the media-position field with a
value equal to the cached one, refuting the claim that the payload contains
only fields whose newly computed value differs from the cached snapshot. -/
theorem C1_counterexample :
    (updateStates c1Ctx c1St1 c1RawD).finalUpdate =
      some [(AttrKey.mediaPosition, AttrValue.vInt 65),
            (AttrKey.mediaDuration, AttrValue.vInt 180)] ∧
    c1St1.mediaPosition = some 65 ∧
    Hms.toSeconds { minutes := 1, seconds := 5 } = 65 :=
  ⟨rfl, rfl, rfl⟩

/-- C1 amended: a synchronization pass never emits an update event with an
empty payload, and for two consecutive raw snapshots differing only in the
volume (with a consistent cache, no chapter list and stream names disabled)
the emitted payload is exactly the volume field; payloads may however also
carry a bounded set of companion fields whose value did not change, such as
the media position whenever the duration changes. -/
theorem C1_update_diff_amended :
    (∀ (c : Ctx) (st : DevState) (raw : RawData) (v : Payload),
      (updateStates c st raw).finalUpdate = some v → v ≠ []) ∧
    (updateStates c1Ctx {} c1Raw1).st = c1St1 ∧
    (∀ v : Int, v ≠ 20 →
      (updateStates c1Ctx c1St1 (c1Raw2 v)).finalUpdate =
        some [(AttrKey.volume, AttrValue.vInt v)]) :=
  ⟨updateStates_payload_ne, c1_pass1, c1_pass2⟩

/-- C1 witness: the amended diff contract at the concrete volume change from
20 to 30. -/
theorem C1_update_diff_amended_witness :
    (updateStates c1Ctx c1St1 (c1Raw2 30)).finalUpdate =
      some [(AttrKey.volume, AttrValue.vInt 30)] ∧
    [(AttrKey.volume, AttrValue.vInt 30)] ≠ ([] : Payload) :=
  ⟨C1_update_diff_amended.2.2 30 (by decide),
   C1_update_diff_amended.1 c1Ctx c1St1 (c1Raw2 30) _
     (C1_update_diff_amended.2.2 30 (by decide))⟩

end Kodi
